import Mathlib

/-!
# Verification of the LLM-relations-extraction core

Shallow embedding of the schema grammar (`app/utils.py`), the evaluation
metrics (`app/prompt_evaluator.py`), the template store
(`app/prompt_manager.py`) and the renderer contract, together with proofs
of the specified properties.

Python strings are modelled as `List Char` (with `String` wrappers where
convenient); Python `float` arithmetic on these metric computations is
exact (sums of small dyadic/decimal fractions and divisions), modelled by
`ℚ`.
-/

namespace KGX

/-- A character of the Python regex class `[A-Za-z0-9_]` (the `\w`-like
segments the triplet grammar uses; ASCII only, as all schema inputs are). -/
def isWordChar (c : Char) : Bool :=
  (('A' ≤ c && c ≤ 'Z') || ('a' ≤ c && c ≤ 'z') || ('0' ≤ c && c ≤ '9') || c = '_')

/-- Longest leading run of word characters (the greedy `[A-Za-z0-9_]+` at
the start of a pattern). -/
def leadWord : List Char → List Char
  | [] => []
  | c :: cs => if isWordChar c then c :: leadWord cs else []

/-- What remains after the longest leading run of word characters. -/
def dropWord : List Char → List Char
  | [] => []
  | c :: cs => if isWordChar c then dropWord cs else c :: cs

/-- `utils.extract_entity_type_from_triplet`:
`re.match(r"([A-Za-z0-9_]+)-", triplet)`.  The anchored greedy match
succeeds exactly when the maximal leading word-char run is nonempty and is
immediately followed by `'-'` (a shorter run would be followed by a word
character, never `'-'`), and then group 1 is that maximal run. -/
def extract_entity_type_from_triplet (s : List Char) : Option (List Char) :=
  match dropWord s with
  | '-' :: _ => if leadWord s = [] then none else some (leadWord s)
  | _ => none

/-- `utils.extract_relation_type`:
`re.search(r"-([A-Za-z0-9_]+)->", triplet)`.  Scan for the first position
holding `'-'`, then a nonempty word-char run, then the literal `"->"`;
group 1 is that run (greediness with backtracking forces the maximal run,
since a shorter one would be followed by a word character, not `'-'`). -/
def extract_relation_type : List Char → Option (List Char)
  | [] => none
  | '-' :: cs =>
    match dropWord cs with
    | '-' :: '>' :: _ =>
      if leadWord cs = [] then extract_relation_type cs else some (leadWord cs)
    | _ => extract_relation_type cs
  | _ :: cs => extract_relation_type cs

/-- `utils.extract_target_type`:
`re.search(r"->([A-Za-z0-9_]+)", triplet)`.  Scan for the first `"->"`
that is followed by at least one word character; group 1 is the maximal
word-char run after it. -/
def extract_target_type : List Char → Option (List Char)
  | [] => none
  | '-' :: '>' :: cs =>
    if leadWord cs = [] then extract_target_type ('>' :: cs) else some (leadWord cs)
  | _ :: cs => extract_target_type cs

/-- The set of node types one triplet contributes to
`utils.get_allowed_node_types` (its parsed source and target types). -/
def tripletNodeTypes (t : List Char) : Finset String :=
  (match extract_entity_type_from_triplet t with
   | some w => {String.mk w}
   | none => ∅) ∪
  (match extract_target_type t with
   | some w => {String.mk w}
   | none => ∅)

/-- The set of relation types one triplet contributes to
`utils.get_allowed_relations`. -/
def tripletRelTypes (t : List Char) : Finset String :=
  match extract_relation_type t with
  | some w => {String.mk w}
  | none => ∅

/-- The Python `set` accumulated by `utils.get_allowed_node_types`. -/
def nodeTypeSet (triplets : List (List Char)) : Finset String :=
  triplets.foldr (fun t acc => tripletNodeTypes t ∪ acc) ∅

/-- The Python `set` accumulated by `utils.get_allowed_relations`. -/
def relTypeSet (triplets : List (List Char)) : Finset String :=
  triplets.foldr (fun t acc => tripletRelTypes t ∪ acc) ∅

/-- `utils.get_allowed_node_types`: `sorted(list(node_types))` — the
accumulated set, listed in lexicographic (Python `sorted`) order. -/
def get_allowed_node_types (triplets : List (List Char)) : List String :=
  (nodeTypeSet triplets).sort (· ≤ ·)

/-- `utils.get_allowed_relations`: `sorted(list(relations))`. -/
def get_allowed_relations (triplets : List (List Char)) : List String :=
  (relTypeSet triplets).sort (· ≤ ·)

/-! ## Python string helpers

`str.lower`, substring membership (`in`), whitespace `str.split()`,
`str.split(sep)` and `str.split(sep, 1)`, modelled on `List Char`.
Python's float arithmetic in the metric code is abstracted by exact
rational arithmetic (`ℚ`); Unicode case/digit/whitespace classes are
modelled by their ASCII cores, which cover all inputs appearing here. -/

/-- `str.lower()` (ASCII core of Python's Unicode lowercasing). -/
def pyLower (s : String) : String := String.mk (s.toList.map Char.toLower)

/-- Python `needle in hay` substring test. -/
def isSubstr (needle hay : String) : Bool :=
  hay.toList.tails.any (needle.toList.isPrefixOf ·)

/-- `str.split()` — split on whitespace runs, no empty parts. -/
def pyWordsAux : List Char → List Char → List (List Char)
  | [], acc => if acc.isEmpty then [] else [acc.reverse]
  | c :: cs, acc =>
    if c.isWhitespace then
      if acc.isEmpty then pyWordsAux cs [] else acc.reverse :: pyWordsAux cs []
    else pyWordsAux cs (c :: acc)

/-- Python `str.split()` on a string. -/
def pyWords (s : String) : List String :=
  (pyWordsAux s.toList []).map String.mk

/-- `str.split(sep)` for a nonempty separator `sc :: srest`: scan left to
right, cutting at each (non-overlapping) occurrence of the separator.
Structural recursion on a fuel counter (each step strictly shortens the
scanned list, so any fuel above its length never runs out; the fuel-zero
fallback is unreachable from `pySplit`). -/
def pySplitAux (sc : Char) (srest : List Char) : ℕ → List Char → List Char → List (List Char)
  | 0, s, acc => [acc.reverse ++ s]
  | _ + 1, [], acc => [acc.reverse]
  | fuel + 1, c :: cs, acc =>
    if c = sc && srest.isPrefixOf cs then
      acc.reverse :: pySplitAux sc srest fuel (cs.drop srest.length) []
    else
      pySplitAux sc srest fuel cs (c :: acc)

/-- Python `s.split(sep)` (nonempty `sep`; Python rejects an empty one). -/
def pySplit (sep s : List Char) : List (List Char) :=
  match sep with
  | [] => [s]
  | c :: rest => pySplitAux c rest (s.length + 1) s []

/-- Python `s.split(sep, 1)`: at most one cut, at the first occurrence. -/
def pySplit1 (sep s : List Char) : List (List Char) :=
  match pySplit sep s with
  | [] => []
  | a :: rest => if rest.isEmpty then [a] else [a, List.intercalate sep rest]

/-! ## Extraction results

The extractor returns parsed JSON dicts; the evaluator reads the keys
`id`, `name`, `type` of each node and `source`, `target`, `type` of each
relationship via `.get(key, "")` / truthiness, so a node or relationship
is modelled by those string fields with `""` standing for an absent key. -/

structure PyNode where
  id : String
  name : String
  type : String
deriving DecidableEq, Repr

structure PyRel where
  source : String
  target : String
  type : String
deriving DecidableEq, Repr

/-- `ExtractionResult`: the `nodes` / `relationships` payload. -/
structure ExtractionResult where
  nodes : List PyNode
  relationships : List PyRel
deriving DecidableEq, Repr

/-! ## The evaluator's metric functions (`app/prompt_evaluator.py`) -/

/-- `PromptEvaluator._extract_allowed_types` (prompt_evaluator.py:289-299):
for each triplet, `parts = triplet.split('-')`; when `len(parts) >= 2`
add `parts[0]`; when `'->' in triplet` additionally add
`triplet.split('->')[1]` (the raw segment between the first and second
`'->'`).  The Python `set` is modelled as a `Finset` (it is only ever
used for membership tests, so its iteration order is irrelevant). -/
def extractAllowedTypes (triplets : List (List Char)) : Finset String :=
  triplets.foldr (fun t acc =>
    (if 2 ≤ (pySplit ['-'] t).length then
        {String.mk ((pySplit ['-'] t).headD [])} else ∅) ∪
    (if t.tails.any (['-', '>'].isPrefixOf ·) then
        {String.mk ((pySplit ['-', '>'] t).getD 1 [])} else ∅) ∪ acc) ∅

/-- One triplet's contribution to
`PromptEvaluator._extract_allowed_relations` (prompt_evaluator.py:301-308):
when `'->' in triplet`, Python evaluates
`triplet.split('->')[0].split('-', 1)[1]`, which raises `IndexError`
(`none`) when the part before the first `'->'` holds no `'-'`. -/
def relTypeOfTriplet (t : List Char) : Option (Option String) :=
  if t.tails.any (['-', '>'].isPrefixOf ·) then
    match pySplit1 ['-'] ((pySplit ['-', '>'] t).headD []) with
    | [_, r] => some (some (String.mk r))
    | _ => none
  else some none

/-- `PromptEvaluator._extract_allowed_relations`: the accumulated set, or
`none` when some triplet raises `IndexError` (the exception escapes the
loop, so one bad triplet poisons the whole call). -/
def extractAllowedRelations (triplets : List (List Char)) : Option (Finset String) :=
  triplets.foldr (fun t acc =>
    match acc, relTypeOfTriplet t with
    | some s, some (some r) => some (insert r s)
    | some s, some none => some s
    | _, _ => none) (some ∅)

/-- The `sum(scores) / len(scores) if scores else 0.0` idiom the metric
functions end with. -/
def meanOrZero (l : List ℚ) : ℚ := if l.isEmpty then 0 else l.sum / (l.length : ℚ)

/-- `PromptEvaluator._estimate_entities_in_text` (prompt_evaluator.py:240-245):
`max(len(text.split()) // 20, 1)` (Python `//` on naturals is `Nat.div`). -/
def estimateEntities (text : String) : ℕ :=
  max ((pyWords text).length / 20) 1

/-- `PromptEvaluator._calculate_completeness` (prompt_evaluator.py:123-150).
The body raises no exception, so the blanket `except: return 0.0` is
unreachable and not modelled. -/
def calculateCompleteness (result : ExtractionResult) (text : String) : ℚ :=
  let nodes := result.nodes
  let relationships := result.relationships
  if nodes.isEmpty && relationships.isEmpty then 0
  else
    let text_entities := estimateEntities text
    if text_entities = 0 then (if !nodes.isEmpty then 1 else 0)
    else
      let coverage := min ((nodes.length : ℚ) / (text_entities : ℚ)) 1
      let relationship_bonus :=
        min ((relationships.length : ℚ) / ((max nodes.length 1 : ℕ) : ℚ)) (3/10)
      min (coverage + relationship_bonus) 1

/-- `PromptEvaluator._check_node_accuracy` (prompt_evaluator.py:247-266):
`+0.3` when id, name and type are all truthy, `+0.4` when the name is
truthy and its lowercasing is a substring of the lowercased text, `+0.3`
when the type is in `_extract_allowed_types(schema_info)`. -/
def checkNodeAccuracy (node : PyNode) (text : String) (schema : List (List Char)) : ℚ :=
  (if node.id ≠ "" ∧ node.name ≠ "" ∧ node.type ≠ "" then 3/10 else 0) +
  (if node.name ≠ "" ∧ isSubstr (pyLower node.name) (pyLower text) then 2/5 else 0) +
  (if node.type ∈ extractAllowedTypes schema then 3/10 else 0)

/-- `PromptEvaluator._check_relationship_accuracy` (prompt_evaluator.py:268-287),
with the allowed-relation set passed in (in the source it is recomputed
per relationship; it only depends on the schema).  The `text` argument of
the source is unused by its body. -/
def checkRelAccuracy (rel : PyRel) (nodes : List PyNode) (allowedRels : Finset String) : ℚ :=
  (if rel.source ≠ "" ∧ rel.target ≠ "" ∧ rel.type ≠ "" then 2/5 else 0) +
  (if rel.source ∈ nodes.map (·.id) ∧ rel.target ∈ nodes.map (·.id) then 3/10 else 0) +
  (if rel.type ∈ allowedRels then 3/10 else 0)

/-- `PromptEvaluator._calculate_accuracy` (prompt_evaluator.py:152-176).
When some relationship exists and `_extract_allowed_relations` raises
`IndexError`, the exception is caught by the blanket `except` and the
metric is `0.0`; otherwise it is the mean of the node sub-scores followed
by the relationship sub-scores. -/
def calculateAccuracy (result : ExtractionResult) (text : String)
    (schema : List (List Char)) : ℚ :=
  let nodes := result.nodes
  let relationships := result.relationships
  if nodes.isEmpty && relationships.isEmpty then 0
  else if !relationships.isEmpty && (extractAllowedRelations schema).isNone then 0
  else
    meanOrZero (nodes.map (checkNodeAccuracy · text schema) ++
      relationships.map (checkRelAccuracy · nodes ((extractAllowedRelations schema).getD ∅)))

/-- ASCII core of `[a-zA-Z_]`. -/
def isIdAlphaU (c : Char) : Bool :=
  (('A' ≤ c && c ≤ 'Z') || ('a' ≤ c && c ≤ 'z') || c = '_')

/-- ASCII digit (core of Python's Unicode `\d`). -/
def isAsciiDigit (c : Char) : Bool := ('0' ≤ c && c ≤ '9')

/-- Full match of `[a-zA-Z_]+_\d+` : the characters decompose as a
nonempty `[a-zA-Z_]` run, an underscore, and a nonempty digit run. -/
def idPatternCore (cs : List Char) : Bool :=
  (List.range cs.length).any fun i =>
    match cs.drop i with
    | '_' :: d =>
      !(cs.take i).isEmpty && (cs.take i).all isIdAlphaU &&
      !d.isEmpty && d.all isAsciiDigit
    | _ => false

/-- `re.compile(r'^[a-zA-Z_]+_\d+$').match(s)` (prompt_evaluator.py:190):
Python's `$` also matches just before one trailing newline. -/
def idPatternMatch (s : String) : Bool :=
  idPatternCore s.toList ||
  (match s.toList.getLast? with
   | some c => c = '\n' && idPatternCore s.toList.dropLast
   | none => false)

/-- `PromptEvaluator._calculate_consistency` (prompt_evaluator.py:178-210):
mean of the id-pattern fraction, the distinct-type ratio, and — only when
some relationship exists — the valid-reference fraction.  (The inner
`if relationships else 1.0` and the `if types`/`if consistency_scores`
guards are unreachable under the enclosing conditions but kept.) -/
def calculateConsistency (result : ExtractionResult) : ℚ :=
  let nodes := result.nodes
  let relationships := result.relationships
  if nodes.isEmpty then 0
  else
    let id_consistency : ℚ :=
      ((nodes.countP (fun n => idPatternMatch n.id)) : ℚ) / (nodes.length : ℚ)
    let types := nodes.map (·.type)
    let type_consistency : ℚ :=
      if !types.isEmpty then (types.dedup.length : ℚ) / (types.length : ℚ) else 0
    meanOrZero ([id_consistency, type_consistency] ++
      (if !relationships.isEmpty && !nodes.isEmpty then
        [let ids := nodes.map (·.id)
         ((relationships.countP (fun r => r.source ∈ ids ∧ r.target ∈ ids)) : ℚ) /
           (relationships.length : ℚ)]
       else []))

/-- `PromptEvaluator._calculate_relevance` (prompt_evaluator.py:212-238). -/
def calculateRelevance (result : ExtractionResult) (text : String) : ℚ :=
  let nodes := result.nodes
  if nodes.isEmpty then 0
  else
    meanOrZero (nodes.map fun n =>
      if n.name ≠ "" then
        if isSubstr (pyLower n.name) (pyLower text) then (1 : ℚ)
        else if (pyWords (pyLower n.name)).any (fun w => isSubstr w (pyLower text)) then 1/2
        else 0
      else 0)

/-! ## The evaluation pipeline (`PromptEvaluator.evaluate_template`)

Python dicts keyed by metric name are modelled as insertion-ordered
association lists: `dictSet` overwrites in place or appends, exactly like
`d[k] = v`. -/

/-- `d.get(k)` on the association-list dict model (Python dicts are
insertion-ordered with unique keys). -/
def dictGet? {α : Type} : List (String × α) → String → Option α
  | [], _ => none
  | (k', v) :: rest, k => if k' = k then some v else dictGet? rest k

/-- `d[k] = v` on the association-list dict model. -/
def dictSet {α : Type} : List (String × α) → String → α → List (String × α)
  | [], k, v => [(k, v)]
  | (k', v') :: rest, k, v =>
    if k' = k then (k, v) :: rest else (k', v') :: dictSet rest k v

/-- `scores[m]` where a missing key contributes nothing (`0`). -/
def scoresGet (d : List (String × ℚ)) (m : String) : ℚ := (dictGet? d m).getD 0

/-- `{metric: 0.0 for metric in evaluation_metrics}`. -/
def zeroScores (metrics : List String) : List (String × ℚ) :=
  metrics.foldl (fun d m => dictSet d m 0) []

/-- `text[:100] + "..." if len(text) > 100 else text`. -/
def truncate100 (s : String) : String :=
  if 100 < s.length then String.mk (s.toList.take 100) ++ "..." else s

/-- One entry of `detailed_results`: either a success record (extraction
result plus scores) or an error record (message plus all-zero scores). -/
structure CaseDetail where
  test_index : ℕ
  text : String
  error : Option String
  extraction_result : Option ExtractionResult
  scores : List (String × ℚ)
deriving DecidableEq, Repr

/-- `PromptEvaluator._evaluate_single_result` (prompt_evaluator.py:99-121):
the scores dict holds, in this fixed order, exactly the known metric
names that occur in the requested list. -/
def evaluateSingleResult (result : ExtractionResult) (text : String)
    (schema : List (List Char)) (metrics : List String) : List (String × ℚ) :=
  (if "completeness" ∈ metrics then [("completeness", calculateCompleteness result text)] else []) ++
  (if "accuracy" ∈ metrics then [("accuracy", calculateAccuracy result text schema)] else []) ++
  (if "consistency" ∈ metrics then [("consistency", calculateConsistency result)] else []) ++
  (if "relevance" ∈ metrics then [("relevance", calculateRelevance result text)] else [])

/-- The state threaded through the test-text loop of `evaluate_template`:
`detailed_results` and `total_scores`. -/
abbrev EvalState := List CaseDetail × List (String × ℚ)

/-- One iteration of the `for i, text in enumerate(test_texts)` loop
(prompt_evaluator.py:38-77), parameterised by the outcome `caseEval` of
the `try` block body (render + extract + score, or an exception message):
on success append the success detail and accumulate each requested metric
present in the scores; on failure append the error detail with all-zero
scores and leave the totals untouched. -/
def evalStep (metrics : List String)
    (caseEval : ℕ → String → Except String (ExtractionResult × List (String × ℚ)))
    (st : EvalState) (p : ℕ × String) : EvalState :=
  match caseEval p.1 p.2 with
  | .ok (r, scores) =>
    (st.1 ++ [⟨p.1, truncate100 p.2, none, some r, scores⟩],
     metrics.foldl (fun d m =>
       if scores.any (fun q => q.1 = m) then dictSet d m (scoresGet d m + scoresGet scores m)
       else d) st.2)
  | .error e =>
    (st.1 ++ [⟨p.1, truncate100 p.2, some e, none, zeroScores metrics⟩], st.2)

/-- `PromptEvaluator.evaluate_template` (prompt_evaluator.py:23-97) up to
the returned `detailed_results` and `evaluation_results`: run the loop
over the enumerated test texts, then build
`{metric: total/num_tests if num_tests > 0 else 0.0 for metric in evaluation_metrics}`. -/
def evaluateTemplateCore
    (caseEval : ℕ → String → Except String (ExtractionResult × List (String × ℚ)))
    (metrics : List String) (test_texts : List String) :
    List CaseDetail × List (String × ℚ) :=
  let fin := test_texts.enum.foldl (evalStep metrics caseEval) ([], zeroScores metrics)
  (fin.1,
   metrics.foldl (fun d m =>
     dictSet d m (if 0 < test_texts.length
       then scoresGet fin.2 m / (test_texts.length : ℚ) else 0)) [])

/-- The `str(e)` Python produces for the `AttributeError` raised at
prompt_evaluator.py:45. -/
def attributeErrorMsg : String :=
  "'EnhancedPromptManager' object has no attribute 'get_active_template'"

/-- The body of the per-case `try` block of `evaluate_template`
(prompt_evaluator.py:39-69) as the code stands: it constructs an
`EnhancedPromptManager` and calls `temp_manager.get_active_template("zh")`,
but `EnhancedPromptManager` (prompt_manager.py) defines no attribute
`get_active_template` (only `get_default_template`), so Python raises
`AttributeError` before any rendering happens and the `extract`
collaborator is never invoked; the blanket `except Exception` then
records `str(e)`. -/
def caseBodyActual (_extract : String → Except String ExtractionResult)
    (_i : ℕ) (_text : String) : Except String (ExtractionResult × List (String × ℚ)) :=
  .error attributeErrorMsg

/-- `evaluate_template` with its per-case body as written (which raises
`AttributeError` on every case). -/
def evaluateTemplate (extract : String → Except String ExtractionResult)
    (metrics : List String) (test_texts : List String) :
    List CaseDetail × List (String × ℚ) :=
  evaluateTemplateCore (caseBodyActual extract) metrics test_texts

/-- What one test case adds to a metric's running total: its score on
success (`0` for a metric absent from the scores dict), nothing on
failure. -/
def caseContribution
    (caseEval : ℕ → String → Except String (ExtractionResult × List (String × ℚ)))
    (m : String) (p : ℕ × String) : ℚ :=
  match caseEval p.1 p.2 with
  | .ok (_, scores) => scoresGet scores m
  | .error _ => 0

/-- The detail record one test case appends. -/
def caseDetailOf (metrics : List String)
    (caseEval : ℕ → String → Except String (ExtractionResult × List (String × ℚ)))
    (p : ℕ × String) : CaseDetail :=
  match caseEval p.1 p.2 with
  | .ok (r, scores) => ⟨p.1, truncate100 p.2, none, some r, scores⟩
  | .error e => ⟨p.1, truncate100 p.2, some e, none, zeroScores metrics⟩

/-! ## The template store (`app/prompt_manager.py`)

`self.templates` is a Python dict `id → PromptTemplate`, modelled as an
insertion-ordered association list (unique keys); `datetime` values are
modelled by a totally ordered abstract timestamp (`ℕ`), supplied to the
mutating operations as the current `datetime.now()`.  Persistence
(`save_templates` / the JSON file) is the external storage collaborator;
it round-trips the dict in insertion order. -/

/-- A JSON-ish metadata value, as stored in a template's `metadata`
dict; `truthy` is Python truthiness, as tested by
`tpl.metadata.get("is_default")`. -/
inductive PyVal where
  | bool (b : Bool)
  | str (s : String)
  | int (n : ℤ)
deriving DecidableEq, Repr

/-- Python truthiness of a metadata value. -/
def PyVal.truthy : PyVal → Bool
  | .bool b => b
  | .str s => s ≠ ""
  | .int n => n ≠ 0

/-- `metadata.get("is_default")` is truthy. -/
def isDefaultFlag (meta : List (String × PyVal)) : Bool :=
  match dictGet? meta "is_default" with
  | some v => v.truthy
  | none => false

/-- `PromptTemplate` (schemas.py:34-44). -/
structure PromptTemplate where
  id : String
  name : String
  description : String
  language : String
  content : String
  version : String
  created_at : ℕ
  updated_at : ℕ
  tags : List String
  metadata : List (String × PyVal)
deriving DecidableEq, Repr

/-- `UpdatePromptTemplateRequest` (schemas.py:54-59): every field
optional (`None` = not supplied). -/
structure UpdateRequest where
  name : Option String
  description : Option String
  content : Option String
  tags : Option (List String)
  metadata : Option (List (String × PyVal))
deriving DecidableEq, Repr

/-- The in-memory template collection `self.templates`. -/
abbrev TemplateStore := List (String × PromptTemplate)

/-- `EnhancedPromptManager.update_template` (prompt_manager.py:195-213):
raise `ValueError(f"模板不存在: {template_id}")` when the id is absent;
otherwise overwrite exactly the fields present in the request, set
`updated_at = datetime.now()` (the `now` argument), mutate the stored
entry in place and return it. -/
def update_template (now : ℕ) (store : TemplateStore) (template_id : String)
    (request : UpdateRequest) : Except String (TemplateStore × PromptTemplate) :=
  match dictGet? store template_id with
  | none => .error ("模板不存在: " ++ template_id)
  | some template =>
    let template' : PromptTemplate :=
      { template with
        name := request.name.getD template.name
        description := request.description.getD template.description
        content := request.content.getD template.content
        tags := request.tags.getD template.tags
        metadata := request.metadata.getD template.metadata
        updated_at := now }
    .ok (dictSet store template_id template', template')

/-- `EnhancedPromptManager.duplicate_template` (prompt_manager.py:300-319):
copy the stored template under a fresh uuid (`newId`), with the
caller-supplied name, an auto-generated description, `version "1.0.0"`,
the source tags plus a `"复制"` marker, and the source `metadata`
verbatim; timestamps default to `datetime.now()` (the `now` argument);
the new entry is inserted (appended, as its key is fresh). -/
def duplicate_template (newId : String) (now : ℕ) (store : TemplateStore)
    (template_id : String) (new_name : String) :
    Except String (TemplateStore × PromptTemplate) :=
  match dictGet? store template_id with
  | none => .error ("模板不存在: " ++ template_id)
  | some original =>
    let new_template : PromptTemplate :=
      { id := newId
        name := new_name
        description := "复制自: " ++ original.name
        language := original.language
        content := original.content
        version := "1.0.0"
        created_at := now
        updated_at := now
        tags := original.tags ++ ["复制"]
        metadata := original.metadata }
    .ok (dictSet store newId new_template, new_template)

/-- The default-template scan of `load_templates`
(prompt_manager.py:164-168): walk the collection in insertion order and
set `default_templates[tpl.language] = tid` for every template whose
metadata carries a truthy `is_default` — so for each language the
last-scanned flagged template wins. -/
def rebuildDefaults (store : TemplateStore) : List (String × String) :=
  store.foldl (fun d p =>
    if isDefaultFlag p.2.metadata then dictSet d p.2.language p.1 else d) []


/-- A one-template store for concrete instantiations: a flagged default
Chinese template last updated at time `5`. -/
def c9Template : PromptTemplate :=
  ⟨"id1", "old-name", "d", "zh", "body", "1.0.0", 5, 5, ["a"], [("is_default", .bool true)]⟩

/-- The store holding just `c9Template`. -/
def c9Store : TemplateStore := [("id1", c9Template)]

/-! ## Claim-side formulas (for comparison with the code) -/

/-- The accuracy formula exactly as claim C3 words it: the arithmetic
mean of per-node and per-relationship sub-scores in which the allowed
node-type and relation-type sets are the ones *SchemaGrammar*
(`app/utils.py`, spec 4.1) derives — `nodeTypeSet` / `relTypeSet` —
rather than the evaluator's own `_extract_allowed_types` /
`_extract_allowed_relations`. -/
def claimAccuracySpec (result : ExtractionResult) (text : String)
    (schema : List (List Char)) : ℚ :=
  ((result.nodes.map (fun n =>
      (if n.id ≠ "" ∧ n.name ≠ "" ∧ n.type ≠ "" then (3 : ℚ)/10 else 0) +
      (if n.name ≠ "" ∧ isSubstr (pyLower n.name) (pyLower text) then 2/5 else 0) +
      (if n.type ∈ nodeTypeSet schema then 3/10 else 0))).sum +
   (result.relationships.map (fun r =>
      (if r.source ≠ "" ∧ r.target ≠ "" ∧ r.type ≠ "" then (2 : ℚ)/5 else 0) +
      (if r.source ∈ result.nodes.map (·.id) ∧ r.target ∈ result.nodes.map (·.id)
        then 3/10 else 0) +
      (if r.type ∈ relTypeSet schema then 3/10 else 0))).sum) /
  (((result.nodes.length + result.relationships.length : ℕ)) : ℚ)

/-- Counterexample input for C3: one node whose type `"New"` is a node
type for SchemaGrammar (the regex stops at the space of
`"New York"`) but not for the evaluator's split-based extraction (which
keeps the whole segment `"New York"`). -/
def c3Result : ExtractionResult := ⟨[⟨"x", "q", "New"⟩], []⟩

/-- Counterexample schema for C3. -/
def c3Schema : List (List Char) := ["Person-WORKS_AT->New York".toList]

/-- The worked consistency example of the spec: two well-formed nodes of
distinct types and one relationship referencing both. -/
def exampleConsistencyInput : ExtractionResult :=
  ⟨[⟨"person_001", "", "Person"⟩, ⟨"org_001", "", "Organization"⟩],
   [⟨"person_001", "org_001", "WORKS_AT"⟩]⟩

/-! ## The template renderer (spec 4.3)

`render_prompt` (prompt_manager.py:270-298) delegates the actual
rendering to the external `jinja2` library (`Environment().from_string`
+ `render`), whose code is not part of this repository, so the template
language is modelled from the spec: templates are literal text,
single-variable substitution, and a `for`-loop over one named sequence
variable binding its loop variable in the body; the four bound variables
are `text`, `allowed_node_types`, `allowed_relations` and
`allowed_triplets`, and referencing a name undefined at its use site
fails with a `TemplateSyntaxError` signal. -/

/-- Modelled from the spec: a value a template variable can hold (the
raw text or one of the three schema-derived sequences). -/
inductive TplVal where
  | str (s : String)
  | list (xs : List String)
deriving DecidableEq, Repr

/-- Modelled from the spec: the template grammar of 4.3 — literal
passthrough, substitution, and a one-variable `for` loop. -/
inductive TplNode where
  | lit (s : String)
  | subst (v : String)
  | forloop (v : String) (seq : String) (body : List TplNode)

mutual
/-- Modelled from the spec: does the template reference a loop or
substitution variable name that is undefined at its use site?  (The loop
variable is bound within its body.) -/
def hasUndefNode (defined : List String) : TplNode → Bool
  | .lit _ => false
  | .subst v => !(defined.contains v)
  | .forloop v seq body => !(defined.contains seq) || hasUndefList (v :: defined) body
def hasUndefList (defined : List String) : List TplNode → Bool
  | [] => false
  | n :: ns => hasUndefNode defined n || hasUndefList defined ns
end

/-- Stringification of a bound value for substitution. -/
def valStr : TplVal → String
  | .str s => s
  | .list xs => String.intercalate ", " xs

mutual
/-- Modelled from the spec: total rendering of a checked template —
literal passthrough, substitution of a bound value, and loop expansion
(one body copy per element, loop variable bound; looping over the string
variable iterates its characters). -/
def renderNode (ctx : List (String × TplVal)) : TplNode → String
  | .lit s => s
  | .subst v =>
    match dictGet? ctx v with
    | some val => valStr val
    | none => ""
  | .forloop v seq body =>
    match dictGet? ctx seq with
    | some (.list xs) => renderIter ctx v body xs
    | some (.str s) => renderIter ctx v body (s.toList.map (fun c => String.mk [c]))
    | none => ""
  termination_by n => (sizeOf n, 0)
def renderIter (ctx : List (String × TplVal)) (v : String) (body : List TplNode) :
    List String → String
  | [] => ""
  | x :: xs => renderList ((v, .str x) :: ctx) body ++ renderIter ctx v body xs
  termination_by xs => (sizeOf body, sizeOf xs)
def renderList (ctx : List (String × TplVal)) : List TplNode → String
  | [] => ""
  | n :: ns => renderNode ctx n ++ renderList ctx ns
  termination_by l => (sizeOf l, 0)
end

/-- Modelled from the spec: the renderer's only failure signal. -/
inductive RenderError where
  | templateSyntaxError
deriving DecidableEq, Repr

/-- The four variables `render_prompt` binds (prompt_manager.py:293-298). -/
def definedVarNames : List String :=
  ["text", "allowed_node_types", "allowed_relations", "allowed_triplets"]

/-- Modelled from the spec: `render(templateContent, schema, text)` —
the external Jinja2 call of `render_prompt` is missing from src, so per
spec 4.3 rendering fails with `TemplateSyntaxError` exactly when the
template references an undefined variable name, and otherwise renders
deterministically with the four bound variables. -/
def render (tpl : List TplNode) (schema : List (List Char)) (text : String) :
    Except RenderError String :=
  if hasUndefList definedVarNames tpl then .error .templateSyntaxError
  else .ok (renderList
    [("text", .str text),
     ("allowed_node_types", .list (get_allowed_node_types schema)),
     ("allowed_relations", .list (get_allowed_relations schema)),
     ("allowed_triplets", .list (schema.map String.mk))] tpl)


/-- A template exercising all three constructs, referencing only defined
names (the loop variable inside its body). -/
def tplExample : List KGX.TplNode :=
  [.lit "## Allowed Triplets", .forloop "triplet" "allowed_triplets" [.lit "- ", .subst "triplet"],
   .lit "## Input Text", .subst "text"]

/-! ## Helper lemmas -/

lemma mem_nodeTypeSet (triplets : List (List Char)) (x : String) :
    x ∈ nodeTypeSet triplets ↔ ∃ t ∈ triplets, x ∈ tripletNodeTypes t := by
  induction triplets with
  | nil => simp [nodeTypeSet]
  | cons h tl ih =>
    simp only [nodeTypeSet, List.foldr_cons, Finset.mem_union, List.mem_cons] at *
    constructor
    · rintro (hx | hx)
      · exact ⟨h, Or.inl rfl, hx⟩
      · obtain ⟨t, ht, hxt⟩ := ih.mp hx
        exact ⟨t, Or.inr ht, hxt⟩
    · rintro ⟨t, (rfl | ht), hxt⟩
      · exact Or.inl hxt
      · exact Or.inr (ih.mpr ⟨t, ht, hxt⟩)

lemma mem_relTypeSet (triplets : List (List Char)) (x : String) :
    x ∈ relTypeSet triplets ↔ ∃ t ∈ triplets, x ∈ tripletRelTypes t := by
  induction triplets with
  | nil => simp [relTypeSet]
  | cons h tl ih =>
    simp only [relTypeSet, List.foldr_cons, Finset.mem_union, List.mem_cons] at *
    constructor
    · rintro (hx | hx)
      · exact ⟨h, Or.inl rfl, hx⟩
      · obtain ⟨t, ht, hxt⟩ := ih.mp hx
        exact ⟨t, Or.inr ht, hxt⟩
    · rintro ⟨t, (rfl | ht), hxt⟩
      · exact Or.inl hxt
      · exact Or.inr (ih.mpr ⟨t, ht, hxt⟩)

lemma nodeTypeSet_congr {l l' : List (List Char)}
    (h : ∀ t, t ∈ l ↔ t ∈ l') : nodeTypeSet l = nodeTypeSet l' := by
  ext x
  rw [mem_nodeTypeSet, mem_nodeTypeSet]
  constructor
  · rintro ⟨t, ht, hx⟩; exact ⟨t, (h t).mp ht, hx⟩
  · rintro ⟨t, ht, hx⟩; exact ⟨t, (h t).mpr ht, hx⟩

lemma relTypeSet_congr {l l' : List (List Char)}
    (h : ∀ t, t ∈ l ↔ t ∈ l') : relTypeSet l = relTypeSet l' := by
  ext x
  rw [mem_relTypeSet, mem_relTypeSet]
  constructor
  · rintro ⟨t, ht, hx⟩; exact ⟨t, (h t).mp ht, hx⟩
  · rintro ⟨t, ht, hx⟩; exact ⟨t, (h t).mpr ht, hx⟩

/-- A mean of values in `[0, 1]` is in `[0, 1]` (and the empty-list
fallback `0.0` is too). -/
lemma meanOrZero_bounds {l : List ℚ} (h : ∀ x ∈ l, 0 ≤ x ∧ x ≤ 1) :
    0 ≤ meanOrZero l ∧ meanOrZero l ≤ 1 := by
  unfold meanOrZero
  by_cases he : l.isEmpty
  · simp [he]
  · have hne : l ≠ [] := by
      intro hl; rw [hl] at he; simp at he
    have hlen : 0 < (l.length : ℚ) := by
      have := List.length_pos.mpr hne
      exact_mod_cast this
    rw [if_neg he]
    constructor
    · exact div_nonneg (List.sum_nonneg fun x hx => (h x hx).1) (le_of_lt hlen)
    · rw [div_le_one hlen]
      calc l.sum ≤ l.length • (1 : ℚ) := List.sum_le_card_nsmul l 1 fun x hx => (h x hx).2
      _ = (l.length : ℚ) := by simp

lemma checkNodeAccuracy_bounds (n : PyNode) (text : String) (schema : List (List Char)) :
    0 ≤ checkNodeAccuracy n text schema ∧ checkNodeAccuracy n text schema ≤ 1 := by
  unfold checkNodeAccuracy
  split_ifs <;> norm_num

lemma checkRelAccuracy_bounds (r : PyRel) (nodes : List PyNode) (R : Finset String) :
    0 ≤ checkRelAccuracy r nodes R ∧ checkRelAccuracy r nodes R ≤ 1 := by
  unfold checkRelAccuracy
  split_ifs <;> norm_num

/-- A `count / length` fraction over a nonempty list is in `[0, 1]`. -/
lemma countFrac_bounds {α : Type} (p : α → Bool) {l : List α} (h : l ≠ []) :
    0 ≤ ((l.countP p : ℚ) / (l.length : ℚ)) ∧ ((l.countP p : ℚ) / (l.length : ℚ)) ≤ 1 := by
  have hlen : 0 < (l.length : ℚ) := by
    exact_mod_cast List.length_pos.mpr h
  constructor
  · positivity
  · rw [div_le_one hlen]
    exact_mod_cast List.countP_le_length p

lemma calculateCompleteness_bounds (result : ExtractionResult) (text : String) :
    0 ≤ calculateCompleteness result text ∧ calculateCompleteness result text ≤ 1 := by
  unfold calculateCompleteness
  dsimp only
  split_ifs <;> try norm_num
  positivity

lemma calculateAccuracy_bounds (result : ExtractionResult) (text : String)
    (schema : List (List Char)) :
    0 ≤ calculateAccuracy result text schema ∧ calculateAccuracy result text schema ≤ 1 := by
  unfold calculateAccuracy
  dsimp only
  split_ifs <;> try norm_num
  apply meanOrZero_bounds
  intro x hx
  rcases List.mem_append.mp hx with h | h
  · obtain ⟨n, _, rfl⟩ := List.mem_map.mp h
    exact checkNodeAccuracy_bounds n text schema
  · obtain ⟨r, _, rfl⟩ := List.mem_map.mp h
    exact checkRelAccuracy_bounds r result.nodes _

lemma calculateConsistency_bounds (result : ExtractionResult) :
    0 ≤ calculateConsistency result ∧ calculateConsistency result ≤ 1 := by
  unfold calculateConsistency
  dsimp only
  by_cases hn : result.nodes.isEmpty
  · rw [if_pos hn]; norm_num
  · rw [if_neg hn]
    have hnodes : result.nodes ≠ [] := by simpa [List.isEmpty_iff] using hn
    have htypes : (!(result.nodes.map (fun x => x.type)).isEmpty) = true := by
      simp [List.isEmpty_iff, hnodes]
    rw [if_pos htypes]
    apply meanOrZero_bounds
    intro x hx
    rcases List.mem_append.mp hx with h | h
    · rcases List.mem_cons.mp h with rfl | h'
      · exact countFrac_bounds _ hnodes
      · rcases List.mem_singleton.mp h' with rfl
        have hmlen : (result.nodes.map (fun x => x.type)) ≠ [] := by
          simp [hnodes]
        have hlen : 0 < ((result.nodes.map (fun x => x.type)).length : ℚ) := by
          exact_mod_cast List.length_pos.mpr hmlen
        constructor
        · positivity
        · rw [div_le_one hlen]
          exact_mod_cast (result.nodes.map (fun x => x.type)).dedup_sublist.length_le
    · by_cases hrel : (!result.relationships.isEmpty && !result.nodes.isEmpty) = true
      · rw [if_pos hrel] at h
        rcases List.mem_singleton.mp h with rfl
        have hrels : result.relationships ≠ [] := by
          intro he; rw [he] at hrel; simp at hrel
        exact countFrac_bounds _ hrels
      · rw [if_neg hrel] at h
        simp at h

lemma calculateRelevance_bounds (result : ExtractionResult) (text : String) :
    0 ≤ calculateRelevance result text ∧ calculateRelevance result text ≤ 1 := by
  unfold calculateRelevance
  dsimp only
  split_ifs <;> try norm_num
  apply meanOrZero_bounds
  intro x hx
  obtain ⟨n, _, rfl⟩ := List.mem_map.mp hx
  split_ifs <;> norm_num
lemma dictGet?_dictSet_same {α : Type} (d : List (String × α)) (k : String) (v : α) :
    dictGet? (dictSet d k v) k = some v := by
  induction d with
  | nil => simp [dictSet, dictGet?]
  | cons p rest ih =>
    obtain ⟨k', v'⟩ := p
    by_cases h : k' = k
    · simp [dictSet, h, dictGet?]
    · simp [dictSet, h, dictGet?, ih]

lemma dictGet?_dictSet_ne {α : Type} (d : List (String × α)) {k' k : String} (v : α) (h : k' ≠ k) :
    dictGet? (dictSet d k' v) k = dictGet? d k := by
  induction d with
  | nil => simp [dictSet, dictGet?, h]
  | cons p rest ih =>
    obtain ⟨k₀, v₀⟩ := p
    by_cases h0 : k₀ = k'
    · subst h0
      simp [dictSet, dictGet?, h]
    · simp [dictSet, h0, dictGet?, ih]

/-- A fold of per-key writes never touches a key outside the written list. -/
lemma fold_preserve {α : Type} {u : List (String × α) → String → List (String × α)}
    (hother : ∀ d m' m, m' ≠ m → dictGet? (u d m') m = dictGet? d m)
    (ms : List String) {m : String} (hm : m ∉ ms) (init : List (String × α)) :
    dictGet? (ms.foldl u init) m = dictGet? init m := by
  induction ms generalizing init with
  | nil => rfl
  | cons h t ih =>
    have hmh : h ≠ m := fun he => hm (he ▸ List.mem_cons_self h t)
    have hmt : m ∉ t := fun ht => hm (List.mem_cons_of_mem h ht)
    rw [List.foldl_cons, ih hmt, hother init h m hmh]

/-- Looking up `m` after folding constant-per-key writes over a list
containing `m` yields `m`'s value. -/
lemma fold_dictSet_const_lookup {α : Type} (c : String → α) (ms : List String) {m : String}
    (hm : m ∈ ms) (init : List (String × α)) :
    dictGet? (ms.foldl (fun d m' => dictSet d m' (c m')) init) m = some (c m) := by
  induction ms generalizing init with
  | nil => cases hm
  | cons h t ih =>
    rw [List.foldl_cons]
    by_cases hmt : m ∈ t
    · exact ih hmt _
    · have hm' : m = h := by
        rcases List.mem_cons.mp hm with h' | h'
        · exact h'
        · exact absurd h' hmt
      subst hm'
      rw [fold_preserve (fun d m' m h => dictGet?_dictSet_ne d _ h) t hmt,
        dictGet?_dictSet_same]

/-- Looking up `m` after folding read-modify-write updates of distinct
keys over a list containing `m` is one update of `m` on the initial
dict, provided each update touches only its own key and reads only it. -/
lemma fold_rmw_lookup {α : Type} {u : List (String × α) → String → List (String × α)}
    (hother : ∀ d m' m, m' ≠ m → dictGet? (u d m') m = dictGet? d m)
    (hself : ∀ d d' m, dictGet? d m = dictGet? d' m →
      dictGet? (u d m) m = dictGet? (u d' m) m)
    (ms : List String) {m : String} (hnd : ms.Nodup) (hm : m ∈ ms)
    (init : List (String × α)) :
    dictGet? (ms.foldl u init) m = dictGet? (u init m) m := by
  induction ms generalizing init with
  | nil => cases hm
  | cons h t ih =>
    rw [List.foldl_cons]
    rcases List.mem_cons.mp hm with rfl | hmt
    · have hmt : m ∉ t := (List.nodup_cons.mp hnd).1
      exact fold_preserve hother t hmt _
    · have hh : h ≠ m := by
        rintro rfl
        exact (List.nodup_cons.mp hnd).1 hmt
      have := ih (List.nodup_cons.mp hnd).2 hmt (u init h)
      rw [this]
      exact hself _ _ _ (hother init h m hh)

lemma scoresGet_zeroScores (metrics : List String) (m : String) :
    scoresGet (zeroScores metrics) m = 0 := by
  unfold scoresGet zeroScores
  by_cases hm : m ∈ metrics
  · rw [fold_dictSet_const_lookup (fun _ => 0) metrics hm]
    rfl
  · rw [fold_preserve (fun d m' m h => dictGet?_dictSet_ne d _ h) metrics hm]
    rfl

lemma dictGet?_zeroScores {metrics : List String} {m : String} (hm : m ∈ metrics) :
    dictGet? (zeroScores metrics) m = some 0 :=
  fold_dictSet_const_lookup (fun _ => 0) metrics hm []

/-- The details list the loop accumulates. -/
lemma details_eq (metrics : List String)
    (caseEval : ℕ → String → Except String (ExtractionResult × List (String × ℚ)))
    (ps : List (ℕ × String)) (st : EvalState) :
    (ps.foldl (evalStep metrics caseEval) st).1 =
      st.1 ++ ps.map (caseDetailOf metrics caseEval) := by
  induction ps generalizing st with
  | nil => simp
  | cons p t ih =>
    rw [List.foldl_cons, ih, List.map_cons]
    unfold evalStep caseDetailOf
    cases caseEval p.1 p.2 with
    | ok pr => obtain ⟨r, scores⟩ := pr; simp
    | error e => simp

lemma dictGet?_eq_none_of_not_any {α : Type} {d : List (String × α)} {k : String}
    (h : d.any (fun p => p.1 = k) = false) : dictGet? d k = none := by
  induction d with
  | nil => rfl
  | cons p rest ih =>
    obtain ⟨k', v⟩ := p
    simp only [List.any_cons, Bool.or_eq_false_iff] at h
    have hk : k' ≠ k := by
      intro he
      simp [he] at h
    simp only [dictGet?, if_neg hk]
    exact ih h.2

/-- The running total at a requested metric after the loop. -/
lemma totals_eq (metrics : List String) (hnd : metrics.Nodup) {m : String}
    (hm : m ∈ metrics)
    (caseEval : ℕ → String → Except String (ExtractionResult × List (String × ℚ)))
    (ps : List (ℕ × String)) (st : EvalState) (q : ℚ)
    (hq : dictGet? st.2 m = some q) :
    dictGet? ((ps.foldl (evalStep metrics caseEval) st).2) m =
      some (q + (ps.map (caseContribution caseEval m)).sum) := by
  induction ps generalizing st q with
  | nil => simpa using hq
  | cons p t ih =>
    rw [List.foldl_cons]
    have hstep : dictGet? ((evalStep metrics caseEval st p).2) m =
        some (q + caseContribution caseEval m p) := by
      unfold evalStep caseContribution
      cases caseEval p.1 p.2 with
      | ok pr =>
        obtain ⟨r, scores⟩ := pr
        simp only []
        have hrmw := fold_rmw_lookup
          (u := fun d m' => if scores.any (fun q => q.1 = m') then
            dictSet d m' (scoresGet d m' + scoresGet scores m') else d)
          (fun d m' mm h => by
            dsimp only
            by_cases hc : (scores.any (fun q => q.1 = m')) = true
            · rw [if_pos hc]
              exact dictGet?_dictSet_ne d _ h
            · rw [if_neg hc])
          (fun d d' mm hdd => by
            dsimp only
            by_cases hc : (scores.any (fun q => q.1 = mm)) = true
            · rw [if_pos hc, if_pos hc, dictGet?_dictSet_same, dictGet?_dictSet_same]
              unfold scoresGet
              rw [hdd]
            · rw [if_neg hc, if_neg hc]
              exact hdd)
          metrics hnd hm st.2
        rw [hrmw]
        by_cases hc : (scores.any (fun q => q.1 = m)) = true
        · rw [if_pos hc, dictGet?_dictSet_same]
          unfold scoresGet
          rw [hq]
          rfl
        · rw [if_neg hc]
          have hnone : dictGet? scores m = none :=
            dictGet?_eq_none_of_not_any (by rwa [Bool.not_eq_true] at hc)
          unfold scoresGet
          rw [hq, hnone]
          norm_num
      | error e =>
        simpa using hq
    rw [ih _ _ hstep, List.map_cons, List.sum_cons]
    ring_nf

lemma scoresGet_caseDetailOf (metrics : List String)
    (caseEval : ℕ → String → Except String (ExtractionResult × List (String × ℚ)))
    (m : String) (p : ℕ × String) :
    scoresGet (caseDetailOf metrics caseEval p).scores m = caseContribution caseEval m p := by
  unfold caseDetailOf caseContribution
  cases caseEval p.1 p.2 with
  | ok pr => obtain ⟨r, scores⟩ := pr; rfl
  | error e => exact scoresGet_zeroScores metrics m


lemma dictGet?_some_mem {α : Type} {d : List (String × α)} {k : String} {v : α}
    (h : dictGet? d k = some v) : (k, v) ∈ d := by
  induction d with
  | nil => simp [dictGet?] at h
  | cons p rest ih =>
    obtain ⟨k', v'⟩ := p
    by_cases hk : k' = k
    · subst hk
      simp [dictGet?] at h
      simp [h]
    · simp only [dictGet?, if_neg hk] at h
      exact List.mem_cons_of_mem _ (ih h)

lemma dictSet_fresh_append {α : Type} {d : List (String × α)} {k : String}
    (h : k ∉ d.map (·.1)) (v : α) : dictSet d k v = d ++ [(k, v)] := by
  induction d with
  | nil => rfl
  | cons p rest ih =>
    obtain ⟨k', v'⟩ := p
    simp only [List.map_cons, List.mem_cons] at h
    push_neg at h
    simp only [dictSet, if_neg (Ne.symm h.1 : k' ≠ k), List.cons_append]
    rw [ih h.2]

/-- Last-scanned-wins characterization of the default-template scan. -/
lemma rebuildDefaults_lookup (s : TemplateStore) (lang : String) :
    dictGet? (rebuildDefaults s) lang =
      ((s.filter (fun p => isDefaultFlag p.2.metadata && p.2.language == lang)).getLast?).map
        (·.1) := by
  unfold rebuildDefaults
  induction s using List.reverseRecOn with
  | nil => rfl
  | append_singleton l x ih =>
    rw [List.foldl_append, List.filter_append, List.foldl_cons, List.foldl_nil]
    by_cases hflag : isDefaultFlag x.2.metadata = true
    · rw [if_pos hflag]
      by_cases hlang : x.2.language = lang
      · have : (List.filter (fun p => isDefaultFlag p.2.metadata && p.2.language == lang) [x]) = [x] := by
          simp [List.filter, hflag, hlang]
        rw [this, List.getLast?_concat, hlang, dictGet?_dictSet_same]
        rfl
      · have hbeq : (x.2.language == lang) = false := beq_eq_false_iff_ne.mpr hlang
        have : (List.filter (fun p => isDefaultFlag p.2.metadata && p.2.language == lang) [x]) = [] := by
          simp [List.filter, hflag, hbeq]
        rw [this, List.append_nil, dictGet?_dictSet_ne _ _ hlang]
        exact ih
    · rw [if_neg hflag]
      have : (List.filter (fun p => isDefaultFlag p.2.metadata && p.2.language == lang) [x]) = [] := by
        simp [List.filter, hflag]
      rw [this, List.append_nil]
      exact ih


end KGX

/-- **C7.** `get_allowed_node_types` and `get_allowed_relations` return
lexicographically sorted, duplicate-free lists, and their output depends
only on which distinct triplets occur in the input: it is invariant under
reordering and duplication of entries. -/
theorem C7_allowed_types_sorted_dedup_invariant :
    (∀ l : List (List Char),
        (KGX.get_allowed_node_types l).Sorted (· ≤ ·) ∧
        (KGX.get_allowed_node_types l).Nodup ∧
        (KGX.get_allowed_relations l).Sorted (· ≤ ·) ∧
        (KGX.get_allowed_relations l).Nodup) ∧
    (∀ l l' : List (List Char), (∀ t, t ∈ l ↔ t ∈ l') →
        KGX.get_allowed_node_types l = KGX.get_allowed_node_types l' ∧
        KGX.get_allowed_relations l = KGX.get_allowed_relations l') := by
  constructor
  · intro l
    exact ⟨Finset.sort_sorted _ _, Finset.sort_nodup _ _,
      Finset.sort_sorted _ _, Finset.sort_nodup _ _⟩
  · intro l l' h
    rw [KGX.get_allowed_node_types, KGX.get_allowed_node_types,
      KGX.get_allowed_relations, KGX.get_allowed_relations,
      KGX.nodeTypeSet_congr h, KGX.relTypeSet_congr h]
    exact ⟨rfl, rfl⟩

/-- **C4.** For every extraction result and test text, with
`estimatedEntities = max(wordCount(t) / 20, 1)` (integer division),
completeness equals
`min(min(len(nodes)/estimatedEntities, 1) + min(len(relationships)/max(len(nodes),1), 0.3), 1)`;
when nodes and relationships are both empty this value is `0`, matching
the code's early return, and `estimatedEntities ≥ 1` always, so the
`estimatedEntities == 0` branch (present verbatim in
`calculateCompleteness`, returning `1.0` if any node exists else `0.0`)
is never taken. -/
theorem C4_completeness_formula (result : KGX.ExtractionResult) (text : String) :
    KGX.calculateCompleteness result text =
      min (min ((result.nodes.length : ℚ) / (KGX.estimateEntities text : ℚ)) 1 +
        min ((result.relationships.length : ℚ) / ((max result.nodes.length 1 : ℕ) : ℚ)) (3/10)) 1
    ∧ (result.nodes = [] → result.relationships = [] →
        KGX.calculateCompleteness result text = 0)
    ∧ 1 ≤ KGX.estimateEntities text := by
  have hte : 1 ≤ KGX.estimateEntities text := le_max_right _ _
  have htne : KGX.estimateEntities text ≠ 0 := by omega
  have hmain : KGX.calculateCompleteness result text =
      min (min ((result.nodes.length : ℚ) / (KGX.estimateEntities text : ℚ)) 1 +
        min ((result.relationships.length : ℚ) / ((max result.nodes.length 1 : ℕ) : ℚ)) (3/10)) 1 := by
    unfold KGX.calculateCompleteness
    by_cases hn : result.nodes.isEmpty <;> by_cases hr : result.relationships.isEmpty
    · have hn' : result.nodes = [] := by simpa using hn
      have hr' : result.relationships = [] := by simpa using hr
      simp [hn', hr']
      norm_num
    all_goals simp only [hn, hr, Bool.true_and, Bool.and_false, Bool.false_and,
      Bool.and_true, if_neg, Bool.false_eq_true, not_false_eq_true, htne, if_false]
  refine ⟨hmain, ?_, hte⟩
  intro hn hr
  unfold KGX.calculateCompleteness
  simp [hn, hr]

/-- **C5.** Consistency is `0` when there are no nodes; otherwise it is
the mean of the fraction of node ids fully matching
`^[A-Za-z_]+_[0-9]+$`, the distinct-type/total-node ratio, and — only
when relationships exist — the fraction of relationships whose source and
target both reference existing node ids (that third sub-score is omitted
from the mean, not counted as zero, when relationships is empty); the
spec's worked example yields exactly `1`. -/
theorem C5_consistency_formula :
    (∀ result : KGX.ExtractionResult, result.nodes = [] →
      KGX.calculateConsistency result = 0) ∧
    (∀ result : KGX.ExtractionResult, result.nodes ≠ [] → result.relationships = [] →
      KGX.calculateConsistency result =
        ((result.nodes.countP (fun n => KGX.idPatternMatch n.id) : ℚ) / (result.nodes.length : ℚ) +
         ((result.nodes.map (·.type)).dedup.length : ℚ) / (result.nodes.length : ℚ)) / 2) ∧
    (∀ result : KGX.ExtractionResult, result.nodes ≠ [] → result.relationships ≠ [] →
      KGX.calculateConsistency result =
        ((result.nodes.countP (fun n => KGX.idPatternMatch n.id) : ℚ) / (result.nodes.length : ℚ) +
         ((result.nodes.map (·.type)).dedup.length : ℚ) / (result.nodes.length : ℚ) +
         (result.relationships.countP (fun r =>
            r.source ∈ result.nodes.map (·.id) ∧ r.target ∈ result.nodes.map (·.id)) : ℚ) /
           (result.relationships.length : ℚ)) / 3) ∧
    KGX.calculateConsistency KGX.exampleConsistencyInput = 1 := by
  have hz : ∀ result : KGX.ExtractionResult, result.nodes = [] →
      KGX.calculateConsistency result = 0 := by
    intro result h
    unfold KGX.calculateConsistency
    simp [h]
  have h2 : ∀ result : KGX.ExtractionResult, result.nodes ≠ [] → result.relationships = [] →
      KGX.calculateConsistency result =
        ((result.nodes.countP (fun n => KGX.idPatternMatch n.id) : ℚ) / (result.nodes.length : ℚ) +
         ((result.nodes.map (·.type)).dedup.length : ℚ) / (result.nodes.length : ℚ)) / 2 := by
    intro result hn hr
    unfold KGX.calculateConsistency KGX.meanOrZero
    simp [hn, hr]
  have h3 : ∀ result : KGX.ExtractionResult, result.nodes ≠ [] → result.relationships ≠ [] →
      KGX.calculateConsistency result =
        ((result.nodes.countP (fun n => KGX.idPatternMatch n.id) : ℚ) / (result.nodes.length : ℚ) +
         ((result.nodes.map (·.type)).dedup.length : ℚ) / (result.nodes.length : ℚ) +
         (result.relationships.countP (fun r =>
            r.source ∈ result.nodes.map (·.id) ∧ r.target ∈ result.nodes.map (·.id)) : ℚ) /
           (result.relationships.length : ℚ)) / 3 := by
    intro result hn hr
    unfold KGX.calculateConsistency KGX.meanOrZero
    simp [hn, hr]
    ring
  refine ⟨hz, h2, h3, ?_⟩
  rw [h3 KGX.exampleConsistencyInput (by decide) (by decide)]
  have hc : KGX.exampleConsistencyInput.nodes.countP
      (fun n => KGX.idPatternMatch n.id) = 2 := by decide
  have hd : (KGX.exampleConsistencyInput.nodes.map (·.type)).dedup.length = 2 := by decide
  have he : KGX.exampleConsistencyInput.relationships.countP (fun r =>
      r.source ∈ KGX.exampleConsistencyInput.nodes.map (·.id) ∧
      r.target ∈ KGX.exampleConsistencyInput.nodes.map (·.id)) = 1 := by decide
  rw [hc, hd, he]
  norm_num [KGX.exampleConsistencyInput]

/-- Witness for C5: the worked example satisfies the nonempty-nodes and
nonempty-relationships hypotheses, and the theorem computes its
consistency. -/
theorem C5_consistency_witness :
    KGX.exampleConsistencyInput.nodes ≠ [] ∧
    KGX.exampleConsistencyInput.relationships ≠ [] ∧
    KGX.calculateConsistency KGX.exampleConsistencyInput =
      ((KGX.exampleConsistencyInput.nodes.countP (fun n => KGX.idPatternMatch n.id) : ℚ) /
         (KGX.exampleConsistencyInput.nodes.length : ℚ) +
       ((KGX.exampleConsistencyInput.nodes.map (·.type)).dedup.length : ℚ) /
         (KGX.exampleConsistencyInput.nodes.length : ℚ) +
       (KGX.exampleConsistencyInput.relationships.countP (fun r =>
          r.source ∈ KGX.exampleConsistencyInput.nodes.map (·.id) ∧
          r.target ∈ KGX.exampleConsistencyInput.nodes.map (·.id)) : ℚ) /
         (KGX.exampleConsistencyInput.relationships.length : ℚ)) / 3 :=
  ⟨by decide, by decide,
    C5_consistency_formula.2.2.1 KGX.exampleConsistencyInput (by decide) (by decide)⟩

/-- **C3 (counterexample).** The claim ties the accuracy type checks to
the SchemaGrammar-derived sets of spec 4.1, but `_calculate_accuracy`
uses its own split-based extraction: for the schema triplet
`"Person-WORKS_AT->New York"` and a node typed `"New"`, the code scores
`0.3` while the claimed formula scores `0.6`. -/
theorem C3_accuracy_counterexample :
    KGX.calculateAccuracy KGX.c3Result "z" KGX.c3Schema = 3/10 ∧
    KGX.claimAccuracySpec KGX.c3Result "z" KGX.c3Schema = 3/5 ∧
    KGX.calculateAccuracy KGX.c3Result "z" KGX.c3Schema ≠
      KGX.claimAccuracySpec KGX.c3Result "z" KGX.c3Schema := by
  have h1 : KGX.calculateAccuracy KGX.c3Result "z" KGX.c3Schema = 3/10 := by
    unfold KGX.calculateAccuracy KGX.meanOrZero KGX.checkNodeAccuracy
    simp +decide [KGX.c3Result]
  have h2 : KGX.claimAccuracySpec KGX.c3Result "z" KGX.c3Schema = 3/5 := by
    unfold KGX.claimAccuracySpec
    simp +decide [KGX.c3Result]
    norm_num
  refine ⟨h1, h2, ?_⟩
  rw [h1, h2]
  norm_num

/-- **C3 (amended).** For every extraction result with at least one node
or relationship, provided the evaluator's own relation-type extraction
does not raise (`extractAllowedRelations schema = some R`; it raises
exactly when some triplet contains `'->'` with no `'-'` before it, in
which case the metric is `0.0`), accuracy equals the arithmetic mean over
all node and relationship sub-scores, where the type checks use the
*evaluator's own* split-derived sets: a node earns `+0.3` if id, name and
type are all non-empty, `+0.4` if its (non-empty) name is a
case-insensitive substring of the text, `+0.3` if its type is in
`_extract_allowed_types(schema)`, and a relationship earns `+0.4` if
source, target and type are all non-empty, `+0.3` if both endpoints occur
among the result's node ids, `+0.3` if its type is in
`_extract_allowed_relations(schema)`. -/
theorem C3_accuracy_amended (result : KGX.ExtractionResult) (text : String)
    (schema : List (List Char)) (R : Finset String)
    (hne : result.nodes ≠ [] ∨ result.relationships ≠ [])
    (hR : KGX.extractAllowedRelations schema = some R) :
    KGX.calculateAccuracy result text schema =
      ((result.nodes.map (fun n =>
          (if n.id ≠ "" ∧ n.name ≠ "" ∧ n.type ≠ "" then (3 : ℚ)/10 else 0) +
          (if n.name ≠ "" ∧ KGX.isSubstr (KGX.pyLower n.name) (KGX.pyLower text)
            then 2/5 else 0) +
          (if n.type ∈ KGX.extractAllowedTypes schema then 3/10 else 0))).sum +
       (result.relationships.map (fun r =>
          (if r.source ≠ "" ∧ r.target ≠ "" ∧ r.type ≠ "" then (2 : ℚ)/5 else 0) +
          (if r.source ∈ result.nodes.map (·.id) ∧ r.target ∈ result.nodes.map (·.id)
            then 3/10 else 0) +
          (if r.type ∈ R then 3/10 else 0))).sum) /
      (((result.nodes.length + result.relationships.length : ℕ)) : ℚ) := by
  unfold KGX.calculateAccuracy KGX.meanOrZero KGX.checkNodeAccuracy KGX.checkRelAccuracy
  have hnonempty : (result.nodes.isEmpty && result.relationships.isEmpty) = false := by
    rcases hne with h | h <;> simp [List.isEmpty_iff, h]
  rw [hR]
  have happ : ¬((result.nodes.map fun n =>
      (if n.id ≠ "" ∧ n.name ≠ "" ∧ n.type ≠ "" then (3 : ℚ)/10 else 0) +
      (if n.name ≠ "" ∧ KGX.isSubstr (KGX.pyLower n.name) (KGX.pyLower text)
        then 2/5 else 0) +
      (if n.type ∈ KGX.extractAllowedTypes schema then 3/10 else 0)) ++
      result.relationships.map fun r =>
      (if r.source ≠ "" ∧ r.target ≠ "" ∧ r.type ≠ "" then (2 : ℚ)/5 else 0) +
      (if r.source ∈ result.nodes.map (·.id) ∧ r.target ∈ result.nodes.map (·.id)
        then 3/10 else 0) +
      (if r.type ∈ R then 3/10 else 0)).isEmpty := by
    simp only [List.isEmpty_iff, List.append_eq_nil, List.map_eq_nil_iff]
    rintro ⟨h1, h2⟩
    rcases hne with h | h
    · exact h h1
    · exact h h2
  simp only [hnonempty, Bool.false_eq_true, if_false, Option.isNone_some,
    Bool.and_false, Option.getD_some, happ, List.sum_append, List.length_append,
    List.length_map, if_neg, Nat.cast_add]

/-- Witness for C3 (amended): the counterexample input has a node and its
schema's relation extraction succeeds, so the amended formula applies. -/
theorem C3_accuracy_amended_witness :
    (KGX.c3Result.nodes ≠ [] ∨ KGX.c3Result.relationships ≠ []) ∧
    KGX.extractAllowedRelations KGX.c3Schema = some {"WORKS_AT"} ∧
    KGX.calculateAccuracy KGX.c3Result "z" KGX.c3Schema =
      ((KGX.c3Result.nodes.map (fun n =>
          (if n.id ≠ "" ∧ n.name ≠ "" ∧ n.type ≠ "" then (3 : ℚ)/10 else 0) +
          (if n.name ≠ "" ∧ KGX.isSubstr (KGX.pyLower n.name) (KGX.pyLower "z")
            then 2/5 else 0) +
          (if n.type ∈ KGX.extractAllowedTypes KGX.c3Schema then 3/10 else 0))).sum +
       (KGX.c3Result.relationships.map (fun r =>
          (if r.source ≠ "" ∧ r.target ≠ "" ∧ r.type ≠ "" then (2 : ℚ)/5 else 0) +
          (if r.source ∈ KGX.c3Result.nodes.map (·.id) ∧
              r.target ∈ KGX.c3Result.nodes.map (·.id) then 3/10 else 0) +
          (if r.type ∈ ({"WORKS_AT"} : Finset String) then 3/10 else 0))).sum) /
      (((KGX.c3Result.nodes.length + KGX.c3Result.relationships.length : ℕ)) : ℚ) :=
  ⟨Or.inl (by decide), by decide,
    C3_accuracy_amended KGX.c3Result "z" KGX.c3Schema {"WORKS_AT"}
      (Or.inl (by decide)) (by decide)⟩

/-- **C6.** For every extraction result, test text and schema, each of
the four metric functions — completeness, accuracy, consistency,
relevance — returns a value within the closed interval `[0, 1]`. -/
theorem C6_metric_ranges (result : KGX.ExtractionResult) (text : String)
    (schema : List (List Char)) :
    (0 ≤ KGX.calculateCompleteness result text ∧ KGX.calculateCompleteness result text ≤ 1) ∧
    (0 ≤ KGX.calculateAccuracy result text schema ∧
      KGX.calculateAccuracy result text schema ≤ 1) ∧
    (0 ≤ KGX.calculateConsistency result ∧ KGX.calculateConsistency result ≤ 1) ∧
    (0 ≤ KGX.calculateRelevance result text ∧ KGX.calculateRelevance result text ≤ 1) :=
  ⟨KGX.calculateCompleteness_bounds result text,
   KGX.calculateAccuracy_bounds result text schema,
   KGX.calculateConsistency_bounds result,
   KGX.calculateRelevance_bounds result text⟩

/-- Witness for C7: the invariance part applied to a duplicated-entry
list and its deduplicated reordering. -/
theorem C7_allowed_types_invariant_witness :
    (∀ t : List Char, t ∈ ["A-R->B".toList, "C-S->D".toList, "A-R->B".toList] ↔
        t ∈ ["C-S->D".toList, "A-R->B".toList]) ∧
    (KGX.get_allowed_node_types ["A-R->B".toList, "C-S->D".toList, "A-R->B".toList] =
        KGX.get_allowed_node_types ["C-S->D".toList, "A-R->B".toList] ∧
      KGX.get_allowed_relations ["A-R->B".toList, "C-S->D".toList, "A-R->B".toList] =
        KGX.get_allowed_relations ["C-S->D".toList, "A-R->B".toList]) :=
  ⟨by intro t; simp; tauto,
    C7_allowed_types_sorted_dedup_invariant.2 _ _ (by intro t; simp; tauto)⟩

/-- **C1 (code bug).** As written, every iteration of
`evaluate_template`'s loop calls `temp_manager.get_active_template("zh")`
on an `EnhancedPromptManager`, which defines no such attribute, so Python
raises `AttributeError` inside the `try` before rendering or extraction;
consequently every test case — for any extraction collaborator, metric
list and test texts — is recorded as an error detail with no extraction
result, contradicting the claimed render→extract→score success path. -/
theorem C1_every_case_records_error (extract : String → Except String KGX.ExtractionResult)
    (metrics : List String) (test_texts : List String) :
    ∀ d ∈ (KGX.evaluateTemplate extract metrics test_texts).1,
      d.error = some KGX.attributeErrorMsg ∧ d.extraction_result = none := by
  intro d hd
  unfold KGX.evaluateTemplate KGX.evaluateTemplateCore at hd
  dsimp only at hd
  rw [KGX.details_eq] at hd
  simp only [List.nil_append, List.mem_map] at hd
  obtain ⟨p, _, rfl⟩ := hd
  unfold KGX.caseDetailOf KGX.caseBodyActual
  exact ⟨rfl, rfl⟩

/-- Witness for C1: the single test case `"Alice works at Acme Corp"` is
recorded as an `AttributeError` detail with zero scores. -/
theorem C1_every_case_records_error_witness :
    (⟨0, "Alice works at Acme Corp", some KGX.attributeErrorMsg, none,
        [("completeness", 0)]⟩ : KGX.CaseDetail) ∈
      (KGX.evaluateTemplate (fun _ => .error "unused") ["completeness"]
        ["Alice works at Acme Corp"]).1 ∧
    ((⟨0, "Alice works at Acme Corp", some KGX.attributeErrorMsg, none,
        [("completeness", 0)]⟩ : KGX.CaseDetail).error = some KGX.attributeErrorMsg ∧
     (⟨0, "Alice works at Acme Corp", some KGX.attributeErrorMsg, none,
        [("completeness", 0)]⟩ : KGX.CaseDetail).extraction_result = none) :=
  ⟨by decide, C1_every_case_records_error (fun _ => .error "unused") ["completeness"]
      ["Alice works at Acme Corp"] _ (by decide)⟩

/-- **C8.** For every per-case evaluator, duplicate-free requested-metric
list and requested metric `m`: with zero test texts the returned average
for `m` is exactly `0` (the explicit `num_tests > 0` guard, no division
fault), and in general the average for `m` equals the sum of `m`'s
per-case scores over the recorded details divided by the number of test
texts. -/
theorem C8_zero_texts_and_averages
    (caseEval : ℕ → String → Except String (KGX.ExtractionResult × List (String × ℚ)))
    (metrics : List String) (m : String) (test_texts : List String)
    (hnd : metrics.Nodup) (hm : m ∈ metrics) :
    KGX.dictGet? (KGX.evaluateTemplateCore caseEval metrics []).2 m = some 0 ∧
    KGX.dictGet? (KGX.evaluateTemplateCore caseEval metrics test_texts).2 m =
      some (((KGX.evaluateTemplateCore caseEval metrics test_texts).1.map
        (fun d => KGX.scoresGet d.scores m)).sum / (test_texts.length : ℚ)) := by
  constructor
  · unfold KGX.evaluateTemplateCore
    dsimp only
    rw [KGX.fold_dictSet_const_lookup _ metrics hm]
    simp
  · unfold KGX.evaluateTemplateCore
    dsimp only
    rw [KGX.fold_dictSet_const_lookup _ metrics hm, KGX.details_eq]
    have htot := KGX.totals_eq metrics hnd hm caseEval test_texts.enum
      ([], KGX.zeroScores metrics) 0 (KGX.dictGet?_zeroScores hm)
    have hsum : ((test_texts.enum.map (KGX.caseDetailOf metrics caseEval)).map
        (fun d => KGX.scoresGet d.scores m)).sum =
        (test_texts.enum.map (KGX.caseContribution caseEval m)).sum := by
      rw [List.map_map]
      congr 1
      apply List.map_congr_left
      intro p _
      exact KGX.scoresGet_caseDetailOf metrics caseEval m p
    simp only [List.nil_append, hsum]
    by_cases hn : 0 < test_texts.length
    · rw [if_pos hn]
      unfold KGX.scoresGet
      rw [htot]
      norm_num
    · rw [if_neg hn]
      have he : test_texts = [] := by
        cases test_texts with
        | nil => rfl
        | cons a t => simp at hn
      subst he
      simp

/-- Witness for C8: a two-metric request over two test texts whose cases
all fail still satisfies the aggregation equation, and the zero-text
average is `0`. -/
theorem C8_zero_texts_and_averages_witness :
    ((["completeness", "accuracy"] : List String).Nodup ∧
      "accuracy" ∈ (["completeness", "accuracy"] : List String)) ∧
    (KGX.dictGet? (KGX.evaluateTemplateCore (fun _ _ => .error "boom")
        ["completeness", "accuracy"] []).2 "accuracy" = some 0 ∧
     KGX.dictGet? (KGX.evaluateTemplateCore (fun _ _ => .error "boom")
        ["completeness", "accuracy"] ["alpha beta", "gamma"]).2 "accuracy" =
      some (((KGX.evaluateTemplateCore (fun _ _ => .error "boom")
          ["completeness", "accuracy"] ["alpha beta", "gamma"]).1.map
        (fun d => KGX.scoresGet d.scores "accuracy")).sum /
          ((["alpha beta", "gamma"] : List String).length : ℚ))) :=
  ⟨⟨by decide, by decide⟩,
    C8_zero_texts_and_averages (fun _ _ => .error "boom") ["completeness", "accuracy"]
      "accuracy" ["alpha beta", "gamma"] (by decide) (by decide)⟩

/-- **C9.** Updating a stored template with a request in which only
`name` is set overwrites exactly `name`, leaves `content`, `tags`,
`metadata`, `language`, `id`, `created_at`, `description` and `version`
unchanged, and sets `updated_at` to the current time — strictly greater
than the old `updated_at` whenever the clock has advanced; updating an
absent id fails with the `ValueError` carrying the missing id. -/
theorem C9_update_name_only (now : ℕ) (store : KGX.TemplateStore) (tid newName : String)
    (t : KGX.PromptTemplate) (hlook : KGX.dictGet? store tid = some t)
    (hnow : t.updated_at < now) :
    (∃ t' : KGX.PromptTemplate,
      KGX.update_template now store tid ⟨some newName, none, none, none, none⟩ =
        .ok (KGX.dictSet store tid t', t') ∧
      t'.name = newName ∧ t'.content = t.content ∧ t'.tags = t.tags ∧
      t'.metadata = t.metadata ∧ t'.language = t.language ∧ t'.id = t.id ∧
      t'.created_at = t.created_at ∧ t'.description = t.description ∧
      t'.version = t.version ∧ t'.updated_at = now ∧ t.updated_at < t'.updated_at) ∧
    (∀ badId : String, KGX.dictGet? store badId = none →
      KGX.update_template now store badId ⟨some newName, none, none, none, none⟩ =
        .error ("模板不存在: " ++ badId)) := by
  constructor
  · refine ⟨{ t with name := newName, updated_at := now }, ?_, rfl, rfl, rfl, rfl,
      rfl, rfl, rfl, rfl, rfl, rfl, hnow⟩
    unfold KGX.update_template
    rw [hlook]
    rfl
  · intro badId hbad
    unfold KGX.update_template
    rw [hbad]


/-- **C10.** `duplicate_template` copies `metadata` verbatim, so
duplicating a template whose metadata carries a truthy `is_default` flag
yields a second flagged template of the same language (at least two
flagged templates for that language are then stored), and the
default-template scan of `load_templates` resolves each language to the
*last-scanned* flagged template — here the freshly appended duplicate. -/
theorem C10_duplicate_copies_default_flag (newId : String) (now : ℕ) (store : KGX.TemplateStore)
    (tid new_name : String) (t : KGX.PromptTemplate)
    (hlook : KGX.dictGet? store tid = some t)
    (hflag : KGX.isDefaultFlag t.metadata = true)
    (hfresh : newId ∉ store.map (·.1)) :
    (∃ t' : KGX.PromptTemplate,
      KGX.duplicate_template newId now store tid new_name =
        .ok (store ++ [(newId, t')], t') ∧
      t'.metadata = t.metadata ∧
      KGX.isDefaultFlag t'.metadata = true ∧
      t'.language = t.language ∧
      2 ≤ ((store ++ [(newId, t')]).filter
        (fun p => KGX.isDefaultFlag p.2.metadata && p.2.language == t.language)).length ∧
      KGX.dictGet? (KGX.rebuildDefaults (store ++ [(newId, t')])) t.language = some newId) ∧
    (∀ (s : KGX.TemplateStore) (lang : String),
      KGX.dictGet? (KGX.rebuildDefaults s) lang =
        ((s.filter (fun p => KGX.isDefaultFlag p.2.metadata && p.2.language == lang)).getLast?).map
          (·.1)) := by
  refine ⟨?_, KGX.rebuildDefaults_lookup⟩
  refine ⟨⟨newId, new_name, "复制自: " ++ t.name, t.language, t.content, "1.0.0",
    now, now, t.tags ++ ["复制"], t.metadata⟩, ?_, rfl, hflag, rfl, ?_, ?_⟩
  · unfold KGX.duplicate_template
    rw [hlook]
    dsimp only
    rw [KGX.dictSet_fresh_append hfresh]
  · rw [List.filter_append, List.length_append]
    have hmem : (tid, t) ∈ store.filter
        (fun p => KGX.isDefaultFlag p.2.metadata && p.2.language == t.language) := by
      rw [List.mem_filter]
      exact ⟨KGX.dictGet?_some_mem hlook, by simp [hflag]⟩
    have h1 : 1 ≤ (store.filter
        (fun p => KGX.isDefaultFlag p.2.metadata && p.2.language == t.language)).length :=
      List.length_pos.mpr (List.ne_nil_of_mem hmem)
    have h2 : (List.filter
        (fun p => KGX.isDefaultFlag p.2.metadata && p.2.language == t.language)
        [(newId, (⟨newId, new_name, "复制自: " ++ t.name, t.language, t.content, "1.0.0",
          now, now, t.tags ++ ["复制"], t.metadata⟩ : KGX.PromptTemplate))]).length = 1 := by
      simp [hflag]
    rw [h2]
    omega
  · rw [KGX.rebuildDefaults_lookup, List.filter_append]
    have h2 : (List.filter
        (fun p => KGX.isDefaultFlag p.2.metadata && p.2.language == t.language)
        [(newId, (⟨newId, new_name, "复制自: " ++ t.name, t.language, t.content, "1.0.0",
          now, now, t.tags ++ ["复制"], t.metadata⟩ : KGX.PromptTemplate))]) =
        [(newId, (⟨newId, new_name, "复制自: " ++ t.name, t.language, t.content, "1.0.0",
          now, now, t.tags ++ ["复制"], t.metadata⟩ : KGX.PromptTemplate))] := by
      simp [hflag]
    rw [h2, List.getLast?_concat]
    rfl


/-- Witness for C9: updating the one-template store at time `7`. -/
theorem C9_update_name_only_witness :
    KGX.dictGet? KGX.c9Store "id1" = some KGX.c9Template ∧
    KGX.c9Template.updated_at < 7 ∧
    ((∃ t' : KGX.PromptTemplate,
      KGX.update_template 7 KGX.c9Store "id1" ⟨some "new-name", none, none, none, none⟩ =
        .ok (KGX.dictSet KGX.c9Store "id1" t', t') ∧
      t'.name = "new-name" ∧ t'.content = KGX.c9Template.content ∧ t'.tags = KGX.c9Template.tags ∧
      t'.metadata = KGX.c9Template.metadata ∧ t'.language = KGX.c9Template.language ∧
      t'.id = KGX.c9Template.id ∧ t'.created_at = KGX.c9Template.created_at ∧
      t'.description = KGX.c9Template.description ∧
      t'.version = KGX.c9Template.version ∧ t'.updated_at = 7 ∧
      KGX.c9Template.updated_at < t'.updated_at) ∧
    (∀ badId : String, KGX.dictGet? KGX.c9Store badId = none →
      KGX.update_template 7 KGX.c9Store badId ⟨some "new-name", none, none, none, none⟩ =
        .error ("模板不存在: " ++ badId))) :=
  ⟨by decide, by decide, C9_update_name_only 7 KGX.c9Store "id1" "new-name" KGX.c9Template (by decide) (by decide)⟩


/-- Witness for C10: duplicating the flagged default template of the
one-template store. -/
theorem C10_duplicate_copies_default_flag_witness :
    KGX.dictGet? KGX.c9Store "id1" = some KGX.c9Template ∧
    KGX.isDefaultFlag KGX.c9Template.metadata = true ∧
    "id2" ∉ KGX.c9Store.map (·.1) ∧
    ((∃ t' : KGX.PromptTemplate,
      KGX.duplicate_template "id2" 9 KGX.c9Store "id1" "the copy" =
        .ok (KGX.c9Store ++ [("id2", t')], t') ∧
      t'.metadata = KGX.c9Template.metadata ∧
      KGX.isDefaultFlag t'.metadata = true ∧
      t'.language = KGX.c9Template.language ∧
      2 ≤ ((KGX.c9Store ++ [("id2", t')]).filter
        (fun p => KGX.isDefaultFlag p.2.metadata && p.2.language == KGX.c9Template.language)).length ∧
      KGX.dictGet? (KGX.rebuildDefaults (KGX.c9Store ++ [("id2", t')]))
        KGX.c9Template.language = some "id2") ∧
    (∀ (s : KGX.TemplateStore) (lang : String),
      KGX.dictGet? (KGX.rebuildDefaults s) lang =
        ((s.filter (fun p => KGX.isDefaultFlag p.2.metadata && p.2.language == lang)).getLast?).map
          (·.1))) :=
  ⟨by decide, by decide, by decide,
    C10_duplicate_copies_default_flag "id2" 9 KGX.c9Store "id1" "the copy" KGX.c9Template (by decide) (by decide) (by decide)⟩

/-- **C2.** Over the spec's template grammar, `render` is total for
(well-formed) templates and fails with the `TemplateSyntaxError` signal
exactly when the template references a loop or substitution variable
name undefined at its use site — the four defined variables being
`text`, `allowed_node_types`, `allowed_relations`, `allowed_triplets`
(plus loop variables within their bodies); every template referencing
only defined names renders to a string without error. -/
theorem C2_render_fails_iff_undefined_var (tpl : List KGX.TplNode) (schema : List (List Char)) (text : String) :
    ((KGX.render tpl schema text).isOk = !(KGX.hasUndefList KGX.definedVarNames tpl)) ∧
    (KGX.hasUndefList KGX.definedVarNames tpl = true →
      KGX.render tpl schema text = .error .templateSyntaxError) ∧
    (KGX.hasUndefList KGX.definedVarNames tpl = false →
      ∃ s, KGX.render tpl schema text = .ok s) := by
  unfold KGX.render
  by_cases h : KGX.hasUndefList KGX.definedVarNames tpl = true
  · rw [if_pos h, h]
    exact ⟨rfl, fun _ => rfl, fun hc => absurd hc (by simp)⟩
  · have h' : KGX.hasUndefList KGX.definedVarNames tpl = false := by
      simpa using h
    rw [if_neg h, h']
    exact ⟨rfl, fun hc => absurd hc (by simp), fun _ => ⟨_, rfl⟩⟩

theorem C2_render_fails_iff_undefined_var_witness :
    KGX.hasUndefList KGX.definedVarNames KGX.tplExample = false ∧
    (∃ s, KGX.render KGX.tplExample ["Person-HAS_PHONE->Phone".toList] "hello" = .ok s) :=
  ⟨by decide, (C2_render_fails_iff_undefined_var KGX.tplExample ["Person-HAS_PHONE->Phone".toList] "hello").2.2 (by decide)⟩
